import Mathlib

/-!
Shallow embedding of `src/main.c` (charisvt/micro-lab2): a digit-analysis
state machine driving an LED from a serial digit string.

The C program's global variables become fields of one `SysState` record.
Each C function becomes a Lean function `SysState → SysState`.  Observable
effects are recorded in trace fields:
  * `uart_out`     — strings passed to `uart_print` / bytes echoed via `uart_tx`;
  * `phys_writes`  — physical LED levels written via `leds_set`
                     (only issued by `set_led_output` when not frozen);
  * `events`       — instrumentation marking the two periodic observables:
                     a per-digit evaluation (`perform_current_digit_analysis`
                     body running on an in-bounds cursor) and a blink toggle.
`uint32_t` millisecond counters are `Nat`; the C wraparound subtraction
`now - last` on `uint32_t` is modelled by `elapsed` with an explicit
`% 2^32`.  The byte queue is a `List Nat`, the line buffer a `List Char`
whose length plays the role of `input_buffer_idx` (C keeps content beyond
the index but never reads it).
-/

/-- Application states, from the C `AppState` enum. -/
inductive AppState where
  | INIT
  | IDLE
  | RECEIVING_INPUT
  | START_ANALYSIS
  | ANALYZING_DIGIT
  | CONTINUOUS_BLINK
  deriving DecidableEq, Repr

/-- Observable scheduler events (instrumentation of the embedding):
a digit evaluation at a cursor index with its numeric value, or a
blink-phase toggle to a new LED level. -/
inductive Event where
  | digitEval (idx : Nat) (digit : Nat)
  | blinkToggle (level : Bool)
  deriving DecidableEq, Repr

/-- The C program's global state (`static` variables of `main.c`) plus
observable-effect traces. -/
structure SysState where
  current_app_state : AppState
  continuous_mode_active : Bool
  rx_queue : List Nat
  input_buffer : List Char
  processed_number : List Char
  current_digit_idx : Nat
  led_current_state_on : Bool
  led_should_blink : Bool
  button_press_counter : Nat
  led_frozen : Bool
  system_ms_counter : Nat
  last_digit_analysis_time : Nat
  last_led_blink_time : Nat
  uart_char_received_flag : Bool
  button_pressed_flag : Bool
  new_input_interrupt_flag : Bool
  timer_enabled : Bool
  last_state_before_idle : AppState
  uart_out : List String
  phys_writes : List Bool
  events : List Event
  deriving DecidableEq, Repr

/-- `uart_print` / `uart_tx`: append text to the serial output trace. -/
def uart_print (s : SysState) (msg : String) : SysState :=
  { s with uart_out := s.uart_out ++ [msg] }

/-- `uint32_t` subtraction `now - last` as used for interval checks:
`(now - last) mod 2^32`. -/
def elapsed (now last : Nat) : Nat :=
  (now + 4294967296 - last) % 4294967296

/-- `set_led_output`: always record the logical level; issue the physical
write (`leds_set`) only when the LED is not frozen. -/
def set_led_output (s : SysState) (lvl : Bool) : SysState :=
  let s1 := { s with led_current_state_on := lvl }
  if s1.led_frozen then s1
  else { s1 with phys_writes := s1.phys_writes ++ [lvl] }

/-- `reset_for_new_input`: clear line buffer, processed number, cursor,
blink/continuous flags, pending-character flags, and drain the RX queue. -/
def reset_for_new_input (s : SysState) : SysState :=
  { s with input_buffer := [], processed_number := [], current_digit_idx := 0,
           led_should_blink := false, continuous_mode_active := false,
           uart_char_received_flag := false, new_input_interrupt_flag := false,
           rx_queue := [] }

/-- The manual digit test of `filter_and_prepare_number`:
`c >= '0' && c <= '9'`. -/
def isDigitChar (c : Char) : Bool :=
  decide ('0' ≤ c) && decide (c ≤ '9')

/-- The digit-append step of `filter_and_prepare_number`: append `c` to
the output when it is a digit and the output is below
`BUFF_SIZE - 1 = 127`. -/
def filterAppend (c : Char) (acc : List Char) : List Char :=
  if isDigitChar c = true ∧ acc.length < 127 then acc ++ [c] else acc

/-- Loop body of `filter_and_prepare_number` over the raw line, carrying
the accumulated digit output.  After the append step, a final `-` with a
nonempty output so far sets continuous mode and stops the scan. -/
def filterGo : List Char → List Char → List Char × Bool
  | [], acc => (acc, false)
  | c :: rest, acc =>
    if c = '-' ∧ rest = [] ∧ 0 < (filterAppend c acc).length then (filterAppend c acc, true)
    else filterGo rest (filterAppend c acc)

/-- `filter_and_prepare_number` as a pure function of the raw line:
returns the processed digit sequence and the continuous-mode flag. -/
def filterNumber (line : List Char) : List Char × Bool :=
  filterGo line []

/-- `filter_and_prepare_number` acting on the program state (also prints
the continuous-mode notice when a trailing marker is found). -/
def run_filter (s : SysState) : SysState :=
  let r := filterNumber s.input_buffer
  let s1 := { s with processed_number := r.1, continuous_mode_active := r.2 }
  if r.2 then uart_print s1 "Continuous mode detected (\x27-\x27).\x0d\x0a" else s1

/-- `process_received_char`: backspace editing, printable append + echo,
CR ignored here (handled by the caller). -/
def process_received_char (s : SysState) (c : Nat) : SysState :=
  if c = 8 ∨ c = 127 then
    if 0 < s.input_buffer.length then
      uart_print { s with input_buffer := s.input_buffer.dropLast } "\x08 \x08"
    else s
  else if 32 ≤ c ∧ c < 127 then
    if s.input_buffer.length < 127 then
      uart_print { s with input_buffer := s.input_buffer ++ [Char.ofNat c] }
        (String.mk [Char.ofNat c])
    else s
  else s

/-- `perform_current_digit_analysis`: evaluate the digit at the cursor
(no-op when the cursor is out of bounds, as in the C guard). -/
def perform_current_digit_analysis (s : SysState) : SysState :=
  if h : s.current_digit_idx < s.processed_number.length then
    let digit_char := s.processed_number.get ⟨s.current_digit_idx, h⟩
    let digit := digit_char.toNat - 48
    let s1 := uart_print s "Analyzing digit...\x0d\x0a"
    let s2 := { s1 with events := s1.events ++ [Event.digitEval s.current_digit_idx digit] }
    if digit % 2 = 0 then
      let s3 := uart_print s2 "Even digit - LED will blink.\x0d\x0a"
      let s4 := { s3 with led_should_blink := true, led_current_state_on := true }
      set_led_output s4 true
    else
      let s3 := uart_print s2 "Odd digit - LED will toggle and stay.\x0d\x0a"
      let s4 := { s3 with led_should_blink := false,
                          led_current_state_on := !s3.led_current_state_on }
      set_led_output s4 s4.led_current_state_on
  else s

/-- `initiate_digit_analysis`: reset cursor and blink flag, analyze the
first digit when the processed number is nonempty. -/
def initiate_digit_analysis (s : SysState) : SysState :=
  let s1 := { s with current_digit_idx := 0, led_should_blink := false }
  if 0 < s1.processed_number.length then
    { perform_current_digit_analysis s1 with timer_enabled := true }
  else
    { reset_for_new_input s1 with current_app_state := AppState.IDLE }

/-- Line finalization inside `handle_receiving_input_state` (the branch
taken on CR or on the index reaching `BUFF_SIZE - 1`). -/
def finalize_line (s : SysState) : SysState :=
  let s1 := uart_print s "\x0d\x0a"
  let s2 := run_filter s1
  if 0 < s2.processed_number.length then
    { s2 with current_app_state := AppState.START_ANALYSIS }
  else
    let s3 := uart_print s2 "No valid digits entered.\x0d\x0a"
    { reset_for_new_input s3 with current_app_state := AppState.IDLE }

/-- `handle_receiving_input_state`: on a pending character, dequeue it,
process it, clear the flag, and finalize the line on CR or a full buffer.
(When the queue is empty the C code reads an indeterminate `c`; that
situation is unreachable from the ISR protocol, and the model takes the
deterministic part of the check only.) -/
def handle_receiving_input_state (s : SysState) : SysState :=
  if s.uart_char_received_flag then
    match s.rx_queue with
    | c :: rest =>
      let s1 := process_received_char { s with rx_queue := rest } c
      let s2 := { s1 with uart_char_received_flag := false }
      if c = 13 ∨ 127 ≤ s2.input_buffer.length then finalize_line s2 else s2
    | [] =>
      let s2 := { s with uart_char_received_flag := false }
      if 127 ≤ s2.input_buffer.length then finalize_line s2 else s2
  else s

/-- `handle_start_analysis_state`: announce, start the analysis, move to
`ANALYZING_DIGIT`, and reset both the cadence and blink timers to now. -/
def handle_start_analysis_state (s : SysState) : SysState :=
  let s1 := uart_print s "Starting analysis...\x0d\x0a"
  let s2 := initiate_digit_analysis s1
  let s3 := { s2 with current_app_state := AppState.ANALYZING_DIGIT }
  { s3 with last_digit_analysis_time := s3.system_ms_counter,
            last_led_blink_time := s3.system_ms_counter }

/-- The blink-phase check shared by `handle_analyzing_digit_state` and
`handle_continuous_blink_state`: every 200 ms while blinking, flip the
logical level, apply it, and reset the blink timer. -/
def blink_check (s : SysState) : SysState :=
  if s.led_should_blink = true ∧ elapsed s.system_ms_counter s.last_led_blink_time ≥ 200 then
    let s1 := { s with led_current_state_on := !s.led_current_state_on,
                       events := s.events ++ [Event.blinkToggle (!s.led_current_state_on)] }
    let s2 := set_led_output s1 s1.led_current_state_on
    { s2 with last_led_blink_time := s2.system_ms_counter }
  else s

/-- `handle_analyzing_digit_state`: cadence advance every 500 ms (digit
evaluation, or end-of-sequence handling with an early return), then the
blink-phase check. -/
def handle_analyzing_digit_state (s : SysState) : SysState :=
  if elapsed s.system_ms_counter s.last_digit_analysis_time ≥ 500 then
    let s1 := { s with current_digit_idx := s.current_digit_idx + 1 }
    if s1.current_digit_idx < s1.processed_number.length then
      let s2 := perform_current_digit_analysis s1
      let s3 := { s2 with last_digit_analysis_time := s2.system_ms_counter,
                          last_led_blink_time := s2.system_ms_counter }
      blink_check s3
    else
      let s2 := uart_print s1 "Analysis complete. \x0d\x0a"
      if s2.continuous_mode_active then
        let s3 := uart_print s2 "Continuous mode: Restarting analysis.\x0d\x0a"
        { s3 with current_digit_idx := 0, current_app_state := AppState.START_ANALYSIS }
      else if s2.led_should_blink then
        let s3 := { s2 with current_app_state := AppState.CONTINUOUS_BLINK }
        uart_print s3 "Continuous LED blinking.\x0d\x0a"
      else
        let s3 := { s2 with timer_enabled := false, input_buffer := [],
                            processed_number := [], current_digit_idx := 0,
                            current_app_state := AppState.IDLE }
        uart_print s3 "Enter number:"
  else
    blink_check s

/-- `handle_continuous_blink_state`: keep blinking; the defensive
else-branch resets to idle. -/
def handle_continuous_blink_state (s : SysState) : SysState :=
  if s.led_should_blink then
    blink_check s
  else
    let s1 := { s with timer_enabled := false }
    let s2 := set_led_output s1 false
    let s3 := reset_for_new_input s2
    { s3 with current_app_state := AppState.IDLE }

/-- `handle_idle_state`: one-shot prompt via the static
`last_state_before_idle`, then leave for `RECEIVING_INPUT` on a pending
character. -/
def handle_idle_state (s : SysState) : SysState :=
  let s1 := if s.last_state_before_idle ≠ AppState.IDLE ∧
               s.current_app_state = AppState.IDLE then
              uart_print s "Enter number: " else s
  let s2 := { s1 with last_state_before_idle := s1.current_app_state }
  if s2.uart_char_received_flag then
    { s2 with current_app_state := AppState.RECEIVING_INPUT }
  else s2

/-- `handle_init_state`: banner, full reset, LED off, go idle. -/
def handle_init_state (s : SysState) : SysState :=
  let s1 := uart_print s "\x0d\x0a*** Digit Analysis System ***\x0d\x0a"
  let s2 := reset_for_new_input s1
  let s3 := set_led_output s2 false
  { s3 with current_app_state := AppState.IDLE }

/-- The interruption block at the top of the main loop: on
`new_input_interrupt_flag`, report, reset everything, force the LED off,
go idle, drain the RX queue and clear the character flag. -/
def interrupt_check (s : SysState) : SysState :=
  if s.new_input_interrupt_flag then
    let s1 := uart_print s "\x0d\x0aAnalysis interrupted by new input.\x0d\x0a"
    let s2 := uart_print s1 "Enter number:"
    let s3 := { s2 with led_should_blink := false }
    let s4 := reset_for_new_input s3
    let s5 := set_led_output s4 false
    let s6 := { s5 with current_app_state := AppState.IDLE,
                        new_input_interrupt_flag := false }
    { s6 with rx_queue := [], uart_char_received_flag := false }
  else s

/-- The button block of the main loop: on `button_pressed_flag`, count
the press, toggle the frozen flag, report, and on unfreeze immediately
re-apply the preserved logical LED level. -/
def button_check (s : SysState) : SysState :=
  if s.button_pressed_flag then
    let s1 := { s with button_press_counter := s.button_press_counter + 1,
                       led_frozen := !s.led_frozen }
    let s2 :=
      if s1.led_frozen then
        uart_print s1 "\x0d\x0aButton Press: LED functionality LOCKED. Press count: "
      else
        let t := uart_print s1 "\x0d\x0aButton Press: LED functionality RESTORED. Press count: "
        set_led_output t t.led_current_state_on
    let s3 := uart_print s2 (toString s1.button_press_counter ++ "\x0d\x0a")
    { s3 with button_pressed_flag := false }
  else s

/-- The `switch (current_app_state)` dispatch of the main loop. -/
def state_machine_step (s : SysState) : SysState :=
  match s.current_app_state with
  | AppState.INIT => handle_init_state s
  | AppState.IDLE => handle_idle_state s
  | AppState.RECEIVING_INPUT => handle_receiving_input_state s
  | AppState.START_ANALYSIS => handle_start_analysis_state s
  | AppState.ANALYZING_DIGIT => handle_analyzing_digit_state s
  | AppState.CONTINUOUS_BLINK => handle_continuous_blink_state s

/-- One iteration of the `while (1)` main loop: interruption check, then
button check, then the state machine. -/
def main_loop_iter (s : SysState) : SysState :=
  state_machine_step (button_check (interrupt_check s))

/-- A quiescent post-init state, used to build concrete witness states. -/
def baseState : SysState :=
  { current_app_state := AppState.IDLE, continuous_mode_active := false,
    rx_queue := [], input_buffer := [], processed_number := [],
    current_digit_idx := 0, led_current_state_on := false,
    led_should_blink := false, button_press_counter := 0, led_frozen := false,
    system_ms_counter := 0, last_digit_analysis_time := 0,
    last_led_blink_time := 0, uart_char_received_flag := false,
    button_pressed_flag := false, new_input_interrupt_flag := false,
    timer_enabled := false, last_state_before_idle := AppState.INIT,
    uart_out := [], phys_writes := [], events := [] }

/-! ## Helper lemmas: the Number Filter -/

theorem digit_ne_dash {c : Char} (hd : isDigitChar c = true) : c ≠ '-' := by
  intro hc; subst hc; exact absurd hd (by decide)

theorem filterAppend_digits {c : Char} {acc : List Char}
    (hacc : ∀ x ∈ acc, isDigitChar x = true) :
    ∀ x ∈ filterAppend c acc, isDigitChar x = true := by
  unfold filterAppend
  split
  · rename_i hcond
    intro x hx
    rcases List.mem_append.mp hx with hx | hx
    · exact hacc x hx
    · rw [List.mem_singleton.mp hx]; exact hcond.1
  · exact hacc

theorem filterAppend_ne_nil (c : Char) (acc : List Char) :
    (filterAppend c acc ≠ [] ↔ (acc ≠ [] ∨ isDigitChar c = true)) := by
  unfold filterAppend
  split
  · rename_i hcond
    simp [hcond.1]
  · rename_i hcond
    constructor
    · exact fun h => Or.inl h
    · rintro (h | h)
      · exact h
      · have hlen : 127 ≤ acc.length := by
          by_contra hlt
          exact hcond ⟨h, Nat.lt_of_not_le hlt⟩
        intro hnil
        rw [hnil] at hlen
        simp at hlen

theorem filterGo_digits : ∀ (cs acc : List Char),
    (∀ c ∈ acc, isDigitChar c = true) →
    ∀ c ∈ (filterGo cs acc).1, isDigitChar c = true := by
  intro cs
  induction cs with
  | nil => intro acc hacc; simpa [filterGo] using hacc
  | cons c rest ih =>
    intro acc hacc
    rw [filterGo]
    split
    · exact fun x hx => filterAppend_digits hacc x hx
    · exact ih _ (filterAppend_digits hacc)

theorem filterGo_cont : ∀ (cs acc : List Char),
    ((filterGo cs acc).2 = true ↔
      (cs.getLast? = some '-' ∧ (acc ≠ [] ∨ ∃ c ∈ cs.dropLast, isDigitChar c = true))) := by
  intro cs
  induction cs with
  | nil => intro acc; simp [filterGo]
  | cons c rest ih =>
    intro acc
    cases rest with
    | nil =>
      by_cases hc : c = '-'
      · subst hc
        rw [filterGo]
        have hnd : isDigitChar '-' = false := by decide
        by_cases hacc : acc = []
        · subst hacc
          simp [filterAppend, hnd, filterGo]
        · have heq : filterAppend '-' acc = acc := by simp [filterAppend, hnd]
          rw [if_pos ⟨rfl, rfl, by rw [heq]; exact List.length_pos.mpr hacc⟩]
          simp [hacc]
      · rw [filterGo]
        rw [if_neg (by simp [hc])]
        simp [filterGo, hc]
    | cons r rs =>
      rw [filterGo]
      rw [if_neg (by simp)]
      rw [ih]
      rw [filterAppend_ne_nil]
      constructor
      · rintro ⟨hlast, hor⟩
        refine ⟨by simpa [List.getLast?_cons_cons] using hlast, ?_⟩
        rcases hor with (ha | hd) | hx
        · exact Or.inl ha
        · exact Or.inr ⟨c, by simp, hd⟩
        · obtain ⟨x, hx1, hx2⟩ := hx
          exact Or.inr ⟨x, by simp [List.dropLast_cons₂, hx1], hx2⟩
      · rintro ⟨hlast, hor⟩
        refine ⟨by simpa [List.getLast?_cons_cons] using hlast, ?_⟩
        rcases hor with ha | hx
        · exact Or.inl (Or.inl ha)
        · obtain ⟨x, hx1, hx2⟩ := hx
          rw [List.dropLast_cons₂] at hx1
          rcases List.mem_cons.mp hx1 with hx1 | hx1
          · exact Or.inl (Or.inr (hx1 ▸ hx2))
          · exact Or.inr ⟨x, hx1, hx2⟩

theorem filterGo_all_digits : ∀ (cs acc : List Char),
    (∀ c ∈ cs, isDigitChar c = true) → acc.length + cs.length ≤ 127 →
    filterGo cs acc = (acc ++ cs, false) := by
  intro cs
  induction cs with
  | nil => intro acc _ _; simp [filterGo]
  | cons c rest ih =>
    intro acc hdig hlen
    have hdc : isDigitChar c = true := hdig c (by simp)
    have hlt : acc.length < 127 := by
      simp [List.length_cons] at hlen; omega
    have happ : filterAppend c acc = acc ++ [c] := by simp [filterAppend, hdc, hlt]
    rw [filterGo]
    rw [if_neg (by simp [digit_ne_dash hdc])]
    rw [happ]
    rw [ih (acc ++ [c]) (fun x hx => hdig x (by simp [hx])) (by simp at hlen ⊢; omega)]
    simp

/-! ## Helper lemmas: frame facts about the state operations -/

theorem uart_print_led_frozen (s : SysState) (m : String) :
    (uart_print s m).led_frozen = s.led_frozen := rfl

theorem set_led_output_eq (s : SysState) (b : Bool) :
    set_led_output s b =
      { s with led_current_state_on := b,
               phys_writes := if s.led_frozen = true then s.phys_writes
                              else s.phys_writes ++ [b] } := by
  simp only [set_led_output]
  split <;> rename_i h <;> simp [h]

theorem set_led_output_led_frozen (s : SysState) (b : Bool) :
    (set_led_output s b).led_frozen = s.led_frozen := by
  simp only [set_led_output]; split <;> rfl

theorem reset_led_frozen (s : SysState) :
    (reset_for_new_input s).led_frozen = s.led_frozen := rfl

theorem run_filter_led_frozen (s : SysState) :
    (run_filter s).led_frozen = s.led_frozen := by
  simp only [run_filter]; split <;> rfl

theorem process_char_led_frozen (s : SysState) (c : Nat) :
    (process_received_char s c).led_frozen = s.led_frozen := by
  simp only [process_received_char]
  split <;> first
    | rfl
    | (split <;> first
        | rfl
        | (split <;> rfl))

theorem perform_led_frozen (s : SysState) :
    (perform_current_digit_analysis s).led_frozen = s.led_frozen := by
  simp only [perform_current_digit_analysis]
  split
  · split <;> simp [set_led_output_led_frozen, uart_print_led_frozen]
  · rfl

theorem initiate_led_frozen (s : SysState) :
    (initiate_digit_analysis s).led_frozen = s.led_frozen := by
  simp only [initiate_digit_analysis]
  split
  · simp [perform_led_frozen]
  · simp [reset_led_frozen]

theorem finalize_led_frozen (s : SysState) :
    (finalize_line s).led_frozen = s.led_frozen := by
  simp only [finalize_line]
  split
  · simp [run_filter_led_frozen, uart_print_led_frozen]
  · simp [reset_led_frozen, uart_print_led_frozen, run_filter_led_frozen]

theorem receiving_led_frozen (s : SysState) :
    (handle_receiving_input_state s).led_frozen = s.led_frozen := by
  simp only [handle_receiving_input_state]
  split
  · split
    · split
      · rw [finalize_led_frozen]; simp [process_char_led_frozen]
      · simp [process_char_led_frozen]
    · split
      · rw [finalize_led_frozen]
      · rfl
  · rfl

theorem start_analysis_led_frozen (s : SysState) :
    (handle_start_analysis_state s).led_frozen = s.led_frozen := by
  simp only [handle_start_analysis_state]
  simp [initiate_led_frozen, uart_print_led_frozen]

theorem blink_check_led_frozen (s : SysState) :
    (blink_check s).led_frozen = s.led_frozen := by
  simp only [blink_check]
  split
  · simp [set_led_output_led_frozen]
  · rfl

theorem analyzing_led_frozen (s : SysState) :
    (handle_analyzing_digit_state s).led_frozen = s.led_frozen := by
  simp only [handle_analyzing_digit_state]
  split
  · split
    · rw [blink_check_led_frozen]; simp [perform_led_frozen, uart_print_led_frozen]
    · split
      · simp [uart_print_led_frozen]
      · split <;> simp [uart_print_led_frozen]
  · rw [blink_check_led_frozen]

theorem continuous_blink_led_frozen (s : SysState) :
    (handle_continuous_blink_state s).led_frozen = s.led_frozen := by
  simp only [handle_continuous_blink_state]
  split
  · rw [blink_check_led_frozen]
  · simp [reset_led_frozen, set_led_output_led_frozen]

theorem idle_led_frozen (s : SysState) :
    (handle_idle_state s).led_frozen = s.led_frozen := by
  simp only [handle_idle_state]
  split <;> split <;> rfl

theorem init_led_frozen (s : SysState) :
    (handle_init_state s).led_frozen = s.led_frozen := by
  simp only [handle_init_state]
  simp [set_led_output_led_frozen, reset_led_frozen, uart_print_led_frozen]

theorem interrupt_led_frozen (s : SysState) :
    (interrupt_check s).led_frozen = s.led_frozen := by
  simp only [interrupt_check]
  split
  · simp [set_led_output_led_frozen, reset_led_frozen, uart_print_led_frozen]
  · rfl

theorem step_led_frozen (s : SysState) :
    (state_machine_step s).led_frozen = s.led_frozen := by
  cases hst : s.current_app_state <;>
    simp [state_machine_step, hst, init_led_frozen, idle_led_frozen, receiving_led_frozen,
          start_analysis_led_frozen, analyzing_led_frozen, continuous_blink_led_frozen]

theorem button_check_state (s : SysState) :
    (button_check s).current_app_state = s.current_app_state := by
  simp only [button_check]
  split
  · split <;> simp [uart_print, set_led_output_eq]
  · rfl

theorem button_check_events (s : SysState) :
    (button_check s).events = s.events := by
  simp only [button_check]
  split
  · split <;> simp [uart_print, set_led_output_eq]
  · rfl

theorem button_check_rx_queue (s : SysState) :
    (button_check s).rx_queue = s.rx_queue := by
  simp only [button_check]
  split
  · split <;> simp [uart_print, set_led_output_eq]
  · rfl

theorem button_check_input_buffer (s : SysState) :
    (button_check s).input_buffer = s.input_buffer := by
  simp only [button_check]
  split
  · split <;> simp [uart_print, set_led_output_eq]
  · rfl

theorem button_check_uart_flag (s : SysState) :
    (button_check s).uart_char_received_flag = s.uart_char_received_flag := by
  simp only [button_check]
  split
  · split <;> simp [uart_print, set_led_output_eq]
  · rfl

theorem idle_events (s : SysState) :
    (handle_idle_state s).events = s.events := by
  simp only [handle_idle_state]
  split <;> split <;> rfl

theorem idle_rx_queue (s : SysState) :
    (handle_idle_state s).rx_queue = s.rx_queue := by
  simp only [handle_idle_state]
  split <;> split <;> rfl

theorem idle_input_buffer (s : SysState) :
    (handle_idle_state s).input_buffer = s.input_buffer := by
  simp only [handle_idle_state]
  split <;> split <;> rfl

theorem idle_uart_flag (s : SysState) :
    (handle_idle_state s).uart_char_received_flag = s.uart_char_received_flag := by
  simp only [handle_idle_state]
  split <;> split <;> rfl

theorem idle_state_no_flag (s : SysState) (h : s.uart_char_received_flag = false) :
    (handle_idle_state s).current_app_state = s.current_app_state := by
  simp only [handle_idle_state]
  split <;> split <;> simp_all [uart_print]

theorem step_idle (s : SysState) (h : s.current_app_state = AppState.IDLE) :
    state_machine_step s = handle_idle_state s := by
  unfold state_machine_step
  rw [h]

theorem interrupt_check_pos (s : SysState) (h : s.new_input_interrupt_flag = true) :
    interrupt_check s =
      { s with current_app_state := AppState.IDLE,
               continuous_mode_active := false,
               rx_queue := [], input_buffer := [], processed_number := [],
               current_digit_idx := 0, led_current_state_on := false,
               led_should_blink := false, uart_char_received_flag := false,
               new_input_interrupt_flag := false,
               uart_out := s.uart_out ++
                 ["\x0d\x0aAnalysis interrupted by new input.\x0d\x0a", "Enter number:"],
               phys_writes := if s.led_frozen = true then s.phys_writes
                              else s.phys_writes ++ [false] } := by
  simp [interrupt_check, h, uart_print, reset_for_new_input, set_led_output_eq]

/-! ## Helper lemmas: timing, digit evaluation, finalization -/

theorem elapsed_self (n : Nat) : elapsed n n = 0 := by
  unfold elapsed; omega

theorem blink_check_noop (s : SysState) (h : s.last_led_blink_time = s.system_ms_counter) :
    blink_check s = s := by
  unfold blink_check
  rw [if_neg]
  rintro ⟨-, hge⟩
  rw [h, elapsed_self] at hge
  omega

theorem perform_ms (s : SysState) :
    (perform_current_digit_analysis s).system_ms_counter = s.system_ms_counter := by
  simp only [perform_current_digit_analysis]
  split
  · split <;> simp [uart_print, set_led_output_eq]
  · rfl

theorem perform_events (s : SysState) (h : s.current_digit_idx < s.processed_number.length) :
    ∃ d, (perform_current_digit_analysis s).events =
           s.events ++ [Event.digitEval s.current_digit_idx d] := by
  refine ⟨(s.processed_number.get ⟨s.current_digit_idx, h⟩).toNat - 48, ?_⟩
  by_cases hp : ((s.processed_number.get ⟨s.current_digit_idx, h⟩).toNat - 48) % 2 = 0 <;>
    simp only [List.get_eq_getElem] at hp ⊢ <;>
    simp [perform_current_digit_analysis, dif_pos h, hp, uart_print, set_led_output_eq]

theorem initiate_ms (s : SysState) :
    (initiate_digit_analysis s).system_ms_counter = s.system_ms_counter := by
  simp only [initiate_digit_analysis]
  split
  · simp [perform_ms]
  · rfl

theorem start_analysis_blink_time (s : SysState) :
    (handle_start_analysis_state s).last_led_blink_time = s.system_ms_counter := by
  simp only [handle_start_analysis_state]
  simp [initiate_ms, uart_print]

theorem start_analysis_events (s : SysState) (h : 0 < s.processed_number.length) :
    ∃ d, (handle_start_analysis_state s).events = s.events ++ [Event.digitEval 0 d] := by
  obtain ⟨d, hd⟩ := perform_events
      { uart_print s "Starting analysis...\x0d\x0a" with
        current_digit_idx := 0, led_should_blink := false } (by simpa using h)
  refine ⟨d, ?_⟩
  simp only [handle_start_analysis_state, initiate_digit_analysis]
  rw [if_pos (by simpa using h)]
  simpa [uart_print] using hd

theorem run_filter_processed (s : SysState) :
    (run_filter s).processed_number = (filterNumber s.input_buffer).1 := by
  simp only [run_filter]; split <;> simp [uart_print]

theorem finalize_pos (s : SysState) (h : 0 < (filterNumber s.input_buffer).1.length) :
    (finalize_line s).current_app_state = AppState.START_ANALYSIS := by
  simp only [finalize_line]
  rw [if_pos (by rw [run_filter_processed]; simpa [uart_print] using h)]

theorem finalize_zero (s : SysState) (h : (filterNumber s.input_buffer).1.length = 0) :
    (finalize_line s).current_app_state = AppState.IDLE ∧
    "No valid digits entered.\x0d\x0a" ∈ (finalize_line s).uart_out := by
  simp only [finalize_line]
  rw [if_neg (by rw [run_filter_processed]; simp [uart_print, h])]
  constructor
  · rfl
  · simp [uart_print, reset_for_new_input]

theorem set_led_output_frozen_simple (s : SysState) (b : Bool) (hf : s.led_frozen = true) :
    set_led_output s b = { s with led_current_state_on := b } := by
  rw [set_led_output_eq]; simp [hf]

theorem foldl_set_led_frozen : ∀ (targets : List Bool) (s : SysState), s.led_frozen = true →
    ((targets.foldl set_led_output s).phys_writes = s.phys_writes ∧
     (targets.foldl set_led_output s).led_current_state_on =
       targets.getLastD s.led_current_state_on ∧
     (targets.foldl set_led_output s).led_frozen = true ∧
     (targets.foldl set_led_output s).button_pressed_flag = s.button_pressed_flag) := by
  intro targets
  induction targets with
  | nil => intro s hf; simp [hf]
  | cons t ts ih =>
    intro s hf
    rw [List.foldl_cons, set_led_output_frozen_simple s t hf]
    obtain ⟨h1, h2, h3, h4⟩ := ih { s with led_current_state_on := t } hf
    exact ⟨h1, by rw [List.getLastD_cons]; exact h2, h3, h4⟩

/-! ## Concrete example states used by witnesses -/

def exC1 : SysState := { baseState with processed_number := ['2', '3'] }

def exC2b : SysState :=
  { baseState with current_app_state := AppState.RECEIVING_INPUT,
                   input_buffer := List.replicate 126 '1',
                   rx_queue := [55], uart_char_received_flag := true }

def exC3 : SysState :=
  { baseState with current_app_state := AppState.ANALYZING_DIGIT,
                   processed_number := ['1', '3'], current_digit_idx := 1,
                   continuous_mode_active := true,
                   system_ms_counter := 1000, last_digit_analysis_time := 400 }

def exC4 : SysState :=
  { baseState with current_app_state := AppState.ANALYZING_DIGIT,
                   new_input_interrupt_flag := true, processed_number := ['2'],
                   led_should_blink := true, led_current_state_on := true }

def exC5 : SysState := { baseState with led_frozen := true, button_pressed_flag := true }

def exC7 : SysState :=
  { baseState with current_app_state := AppState.ANALYZING_DIGIT,
                   processed_number := ['2', '4'], led_should_blink := true,
                   led_current_state_on := true,
                   system_ms_counter := 700, last_digit_analysis_time := 100,
                   last_led_blink_time := 100 }

def exC9 : SysState :=
  { baseState with current_app_state := AppState.CONTINUOUS_BLINK,
                   new_input_interrupt_flag := true, rx_queue := [53, 13],
                   uart_char_received_flag := true, input_buffer := ['a'] }

def exC10 : SysState := { baseState with button_pressed_flag := true }

/-! ## Claim theorems -/

set_option maxRecDepth 8000

/-- C1: in `perform_current_digit_analysis`, an even digit at the cursor sets
the blinking flag true, sets the logical LED level on, and applies the LED
target (a physical write exactly when not frozen); an odd digit sets the
blinking flag false, negates the previous logical level, and applies it. -/
theorem C1_digit_parity_led (s : SysState)
    (h : s.current_digit_idx < s.processed_number.length) :
    (((s.processed_number.get ⟨s.current_digit_idx, h⟩).toNat - 48) % 2 = 0 →
       (perform_current_digit_analysis s).led_should_blink = true ∧
       (perform_current_digit_analysis s).led_current_state_on = true ∧
       (perform_current_digit_analysis s).phys_writes =
         (if s.led_frozen = true then s.phys_writes else s.phys_writes ++ [true])) ∧
    (((s.processed_number.get ⟨s.current_digit_idx, h⟩).toNat - 48) % 2 ≠ 0 →
       (perform_current_digit_analysis s).led_should_blink = false ∧
       (perform_current_digit_analysis s).led_current_state_on = !s.led_current_state_on ∧
       (perform_current_digit_analysis s).phys_writes =
         (if s.led_frozen = true then s.phys_writes
          else s.phys_writes ++ [!s.led_current_state_on])) := by
  constructor <;> intro hp <;> by_cases hf : s.led_frozen = true <;>
    simp only [List.get_eq_getElem] at hp <;>
    simp [perform_current_digit_analysis, dif_pos h, hp, hf, uart_print, set_led_output]

theorem C1_digit_parity_led_witness :
    (perform_current_digit_analysis exC1).led_should_blink = true ∧
    (perform_current_digit_analysis { exC1 with current_digit_idx := 1 }).led_should_blink
      = false := by
  refine ⟨?_, ?_⟩
  · exact ((C1_digit_parity_led exC1 (by decide)).1 (by decide)).1
  · exact ((C1_digit_parity_led { exC1 with current_digit_idx := 1 } (by decide)).2
      (by decide)).1

/-- C2 counterexample: with a 126-character all-digit buffer, a further
printable character makes the index reach `BUFF_SIZE - 1`; the machine then
transitions to `START_ANALYSIS` (analysis does start) and never reports any
"buffer overflow", contradicting the claim that it reports an overflow,
discards the line, and returns to Idle without starting analysis. -/
theorem C2_overflow_counterexample :
    (handle_receiving_input_state exC2b).current_app_state = AppState.START_ANALYSIS ∧
    "buffer overflow" ∉ (handle_receiving_input_state exC2b).uart_out := by
  constructor
  · decide
  · decide

/-- C2 amended: when the buffer index reaches capacity−1 without a carriage
return, the line is finalized exactly as if terminated: it is filtered, and
if at least one digit survives, analysis starts; only if no digit survives is
"No valid digits entered" reported and the machine returns to Idle.  No
buffer-overflow report exists and the line is not unconditionally discarded. -/
theorem C2_overflow_finalizes_line (s : SysState) (c : Nat) (rest : List Nat)
    (hflag : s.uart_char_received_flag = true)
    (hq : s.rx_queue = c :: rest)
    (hc : 32 ≤ c ∧ c < 127)
    (hbuf : s.input_buffer.length = 126) :
    (0 < (filterNumber (s.input_buffer ++ [Char.ofNat c])).1.length →
       (handle_receiving_input_state s).current_app_state = AppState.START_ANALYSIS) ∧
    ((filterNumber (s.input_buffer ++ [Char.ofNat c])).1.length = 0 →
       (handle_receiving_input_state s).current_app_state = AppState.IDLE ∧
       "No valid digits entered.\x0d\x0a" ∈ (handle_receiving_input_state s).uart_out) := by
  have hc8 : ¬(c = 8 ∨ c = 127) := by omega
  have hstep : handle_receiving_input_state s =
      finalize_line
        { uart_print { s with rx_queue := rest,
                              input_buffer := s.input_buffer ++ [Char.ofNat c] }
            (String.mk [Char.ofNat c]) with
          uart_char_received_flag := false } := by
    simp only [handle_receiving_input_state, hflag, hq]
    simp only [process_received_char]
    rw [if_neg hc8, if_pos hc, if_pos (by omega : s.input_buffer.length < 127)]
    rw [if_pos (Or.inr (by simp [uart_print, hbuf]))]
    simp [uart_print]
  rw [hstep]
  constructor
  · intro hpos
    exact finalize_pos _ (by simpa [uart_print] using hpos)
  · intro hzero
    exact finalize_zero _ (by simpa [uart_print] using hzero)

theorem C2_overflow_finalizes_line_witness :
    (handle_receiving_input_state exC2b).current_app_state = AppState.START_ANALYSIS := by
  exact (C2_overflow_finalizes_line exC2b 55 [] rfl rfl (by decide) (by decide)).1 (by decide)

/-- C3: when the cadence fires with the cursor advancing beyond the last
digit: in continuous mode the cursor wraps to 0, the state returns to
`START_ANALYSIS` (whose next step re-evaluates digit 0) and a restart is
reported; otherwise, if the last digit left the blinking flag true the
machine enters `CONTINUOUS_BLINK`, else it enters `IDLE` with the LED
holding its level (no physical write) and completion reported. -/
theorem C3_end_of_sequence (s : SysState)
    (hcad : elapsed s.system_ms_counter s.last_digit_analysis_time ≥ 500)
    (hend : s.processed_number.length ≤ s.current_digit_idx + 1) :
    (s.continuous_mode_active = true →
       (handle_analyzing_digit_state s).current_digit_idx = 0 ∧
       (handle_analyzing_digit_state s).current_app_state = AppState.START_ANALYSIS ∧
       "Continuous mode: Restarting analysis.\x0d\x0a" ∈
         (handle_analyzing_digit_state s).uart_out ∧
       (0 < s.processed_number.length →
         ∃ d, (handle_start_analysis_state (handle_analyzing_digit_state s)).events =
                (handle_analyzing_digit_state s).events ++ [Event.digitEval 0 d])) ∧
    (s.continuous_mode_active = false → s.led_should_blink = true →
       (handle_analyzing_digit_state s).current_app_state = AppState.CONTINUOUS_BLINK) ∧
    (s.continuous_mode_active = false → s.led_should_blink = false →
       (handle_analyzing_digit_state s).current_app_state = AppState.IDLE ∧
       (handle_analyzing_digit_state s).led_current_state_on = s.led_current_state_on ∧
       (handle_analyzing_digit_state s).phys_writes = s.phys_writes ∧
       "Analysis complete. \x0d\x0a" ∈ (handle_analyzing_digit_state s).uart_out) := by
  have hnotlt : ¬(s.current_digit_idx + 1 < s.processed_number.length) := by omega
  refine ⟨?_, ?_, ?_⟩
  · intro hcont
    have hstep : handle_analyzing_digit_state s =
        { uart_print (uart_print { s with current_digit_idx := s.current_digit_idx + 1 }
            "Analysis complete. \x0d\x0a") "Continuous mode: Restarting analysis.\x0d\x0a" with
          current_digit_idx := 0, current_app_state := AppState.START_ANALYSIS } := by
      simp only [handle_analyzing_digit_state]
      rw [if_pos hcad, if_neg (by simpa using hnotlt)]
      simp [uart_print, hcont]
    refine ⟨by rw [hstep], by rw [hstep], ?_, ?_⟩
    · rw [hstep]; simp [uart_print]
    · intro hlen
      exact start_analysis_events (handle_analyzing_digit_state s)
        (by rw [hstep]; simpa [uart_print] using hlen)
  · intro hcont hblink
    simp only [handle_analyzing_digit_state]
    rw [if_pos hcad, if_neg (by simpa using hnotlt)]
    simp [uart_print, hcont, hblink]
  · intro hcont hblink
    have hstep : handle_analyzing_digit_state s =
        uart_print
          { uart_print { s with current_digit_idx := s.current_digit_idx + 1 }
              "Analysis complete. \x0d\x0a" with
            timer_enabled := false, input_buffer := [], processed_number := [],
            current_digit_idx := 0, current_app_state := AppState.IDLE }
          "Enter number:" := by
      simp only [handle_analyzing_digit_state]
      rw [if_pos hcad, if_neg (by simpa using hnotlt)]
      simp [uart_print, hcont, hblink]
    refine ⟨by rw [hstep]; simp [uart_print], by rw [hstep]; simp [uart_print],
            by rw [hstep]; simp [uart_print], ?_⟩
    rw [hstep]; simp [uart_print]

theorem C3_end_of_sequence_witness :
    (handle_analyzing_digit_state exC3).current_digit_idx = 0 ∧
    (handle_analyzing_digit_state exC3).current_app_state = AppState.START_ANALYSIS := by
  have h := (C3_end_of_sequence exC3 (by decide) (by decide)).1 rfl
  exact ⟨h.1, h.2.1⟩

/-- C4: with the new-input interruption flag raised (in `ANALYZING_DIGIT` or
`CONTINUOUS_BLINK`), the interruption block at the top of the next main-loop
iteration puts the machine in `IDLE`, forces the logical LED level to false
and applies it (physical write exactly when not frozen), clears the cursor,
the digit sequence and the line buffer; and the whole iteration performs no
digit evaluation and no blink toggle. -/
theorem C4_interruption_cancels (s : SysState)
    (_hstate : s.current_app_state = AppState.ANALYZING_DIGIT ∨
               s.current_app_state = AppState.CONTINUOUS_BLINK)
    (hint : s.new_input_interrupt_flag = true) :
    (interrupt_check s).current_app_state = AppState.IDLE ∧
    (interrupt_check s).led_current_state_on = false ∧
    (interrupt_check s).current_digit_idx = 0 ∧
    (interrupt_check s).processed_number = [] ∧
    (interrupt_check s).input_buffer = [] ∧
    (interrupt_check s).phys_writes =
      (if s.led_frozen = true then s.phys_writes else s.phys_writes ++ [false]) ∧
    (main_loop_iter s).events = s.events := by
  have hic := interrupt_check_pos s hint
  refine ⟨by rw [hic], by rw [hic], by rw [hic], by rw [hic], by rw [hic], by rw [hic], ?_⟩
  unfold main_loop_iter
  have h1 : (button_check (interrupt_check s)).current_app_state = AppState.IDLE := by
    rw [button_check_state, hic]
  rw [step_idle _ h1, idle_events, button_check_events, hic]

theorem C4_interruption_cancels_witness :
    (interrupt_check exC4).current_app_state = AppState.IDLE ∧
    (interrupt_check exC4).led_current_state_on = false ∧
    (main_loop_iter exC4).events = exC4.events := by
  have h := C4_interruption_cancels exC4 (Or.inl rfl) rfl
  exact ⟨h.1, h.2.1, h.2.2.2.2.2.2⟩

/-- C5: while the lock flag is true, any sequence of logical LED target
changes performs no physical write while the logical level always records
the latest target; the button press that clears the lock performs exactly
one physical write, of that latest logical level. -/
theorem C5_lock_invariant (s : SysState) (targets : List Bool)
    (hfrozen : s.led_frozen = true) (hbtn : s.button_pressed_flag = true) :
    ((targets.foldl set_led_output s).phys_writes = s.phys_writes ∧
     (targets.foldl set_led_output s).led_current_state_on =
       targets.getLastD s.led_current_state_on) ∧
    (button_check (targets.foldl set_led_output s)).phys_writes =
      s.phys_writes ++ [targets.getLastD s.led_current_state_on] ∧
    (button_check (targets.foldl set_led_output s)).led_frozen = false := by
  obtain ⟨hp, hl, hf, hb⟩ := foldl_set_led_frozen targets s hfrozen
  rw [hbtn] at hb
  refine ⟨⟨hp, hl⟩, ?_, ?_⟩
  · simp [button_check, hb, hf, uart_print, set_led_output_eq, hp, hl]
  · simp [button_check, hb, hf, uart_print, set_led_output_eq]

theorem C5_lock_invariant_witness :
    ((([true, false, true] : List Bool).foldl set_led_output exC5).phys_writes =
       exC5.phys_writes ∧
     (([true, false, true] : List Bool).foldl set_led_output exC5).led_current_state_on =
       ([true, false, true] : List Bool).getLastD exC5.led_current_state_on) ∧
    (button_check (([true, false, true] : List Bool).foldl set_led_output exC5)).phys_writes =
      exC5.phys_writes ++ [([true, false, true] : List Bool).getLastD exC5.led_current_state_on] ∧
    (button_check (([true, false, true] : List Bool).foldl set_led_output exC5)).led_frozen =
      false :=
  C5_lock_invariant exC5 [true, false, true] rfl rfl

/-- C6: for every raw line, the Number Filter output contains only digit
characters, and the continuous flag is true iff the line's last character is
the marker and at least one digit precedes it. -/
theorem C6_filter_output (line : List Char) :
    (∀ c ∈ (filterNumber line).1, isDigitChar c = true) ∧
    ((filterNumber line).2 = true ↔
      (line.getLast? = some '-' ∧ ∃ c ∈ line.dropLast, isDigitChar c = true)) := by
  constructor
  · exact filterGo_digits line [] (by simp)
  · rw [filterNumber, filterGo_cont]
    simp

theorem C6_filter_output_witness :
    isDigitChar '1' = true ∧ (filterNumber ['a', '1', 'b', '2', '-']).2 = true := by
  have h := C6_filter_output ['a', '1', 'b', '2', '-']
  exact ⟨h.1 '1' (by decide), h.2.mpr (by decide)⟩

/-- C7: a digit evaluation on a cadence advance resets the blink-phase timer
to the current counter and the pass emits exactly the digit-evaluation event
(no blink toggle can fire in the same pass); analysis start likewise resets
the blink timer and emits only digit-evaluation events. -/
theorem C7_blink_timer_reset (s : SysState)
    (hcad : elapsed s.system_ms_counter s.last_digit_analysis_time ≥ 500)
    (hin : s.current_digit_idx + 1 < s.processed_number.length) :
    (handle_analyzing_digit_state s).last_led_blink_time = s.system_ms_counter ∧
    (∃ d, (handle_analyzing_digit_state s).events =
            s.events ++ [Event.digitEval (s.current_digit_idx + 1) d]) ∧
    (handle_start_analysis_state s).last_led_blink_time = s.system_ms_counter ∧
    (∃ evs, (handle_start_analysis_state s).events = s.events ++ evs ∧
            ∀ e ∈ evs, ∃ i d, e = Event.digitEval i d) := by
  have hstep : handle_analyzing_digit_state s =
      blink_check
        { perform_current_digit_analysis { s with current_digit_idx := s.current_digit_idx + 1 } with
          last_digit_analysis_time :=
            (perform_current_digit_analysis
              { s with current_digit_idx := s.current_digit_idx + 1 }).system_ms_counter,
          last_led_blink_time :=
            (perform_current_digit_analysis
              { s with current_digit_idx := s.current_digit_idx + 1 }).system_ms_counter } := by
    simp only [handle_analyzing_digit_state]
    rw [if_pos hcad, if_pos (by simpa using hin)]
  have hnb := blink_check_noop
      { perform_current_digit_analysis { s with current_digit_idx := s.current_digit_idx + 1 } with
        last_digit_analysis_time :=
          (perform_current_digit_analysis
            { s with current_digit_idx := s.current_digit_idx + 1 }).system_ms_counter,
        last_led_blink_time :=
          (perform_current_digit_analysis
            { s with current_digit_idx := s.current_digit_idx + 1 }).system_ms_counter } rfl
  rw [hstep, hnb]
  obtain ⟨d, hd⟩ := perform_events { s with current_digit_idx := s.current_digit_idx + 1 }
      (by simpa using hin)
  refine ⟨by simp [perform_ms], ⟨d, by simpa using hd⟩, start_analysis_blink_time s, ?_⟩
  obtain ⟨d2, hd2⟩ := start_analysis_events s (by omega)
  exact ⟨[Event.digitEval 0 d2], hd2, by
    rintro e he; rw [List.mem_singleton.mp he]; exact ⟨0, d2, rfl⟩⟩

theorem C7_blink_timer_reset_witness :
    (handle_analyzing_digit_state exC7).last_led_blink_time = exC7.system_ms_counter ∧
    (∃ d, (handle_analyzing_digit_state exC7).events =
            exC7.events ++ [Event.digitEval 1 d]) := by
  have h := C7_blink_timer_reset exC7 (by decide) (by decide)
  exact ⟨h.1, h.2.1⟩

/-- C8: filtering a line that is already a filtered digit sequence (all
digit characters, no trailing marker, length between 1 and the capacity
bound 127) returns the same sequence with the continuous flag false. -/
theorem C8_filter_idempotent (line : List Char)
    (hdig : ∀ c ∈ line, isDigitChar c = true)
    (hlen1 : 1 ≤ line.length) (hlen2 : line.length ≤ 127) :
    filterNumber line = (line, false) := by
  rw [filterNumber, filterGo_all_digits line [] hdig (by simpa using hlen2)]
  simp

theorem C8_filter_idempotent_witness :
    ((∀ c ∈ (['4', '2'] : List Char), isDigitChar c = true) ∧
     1 ≤ (['4', '2'] : List Char).length ∧ (['4', '2'] : List Char).length ≤ 127) ∧
    filterNumber ['4', '2'] = (['4', '2'], false) :=
  ⟨⟨by decide, by decide, by decide⟩,
   C8_filter_idempotent ['4', '2'] (by decide) (by decide) (by decide)⟩

/-- C9: handling the interruption signal drains the receive queue, clears
the character-received flag and the line buffer, and the iteration ends in
`IDLE`: the characters that triggered the interruption neither begin nor
appear in the next input line. -/
theorem C9_interruption_drains_queue (s : SysState)
    (hint : s.new_input_interrupt_flag = true) :
    (main_loop_iter s).rx_queue = [] ∧
    (main_loop_iter s).uart_char_received_flag = false ∧
    (main_loop_iter s).input_buffer = [] ∧
    (main_loop_iter s).current_app_state = AppState.IDLE := by
  have hic := interrupt_check_pos s hint
  unfold main_loop_iter
  have h1 : (button_check (interrupt_check s)).current_app_state = AppState.IDLE := by
    rw [button_check_state, hic]
  have h2 : (button_check (interrupt_check s)).uart_char_received_flag = false := by
    rw [button_check_uart_flag, hic]
  rw [step_idle _ h1]
  refine ⟨?_, ?_, ?_, ?_⟩
  · rw [idle_rx_queue, button_check_rx_queue, hic]
  · rw [idle_uart_flag, h2]
  · rw [idle_input_buffer, button_check_input_buffer, hic]
  · rw [idle_state_no_flag _ h2, h1]

theorem C9_interruption_drains_queue_witness :
    (main_loop_iter exC9).rx_queue = [] ∧
    (main_loop_iter exC9).uart_char_received_flag = false ∧
    (main_loop_iter exC9).input_buffer = [] ∧
    (main_loop_iter exC9).current_app_state = AppState.IDLE :=
  C9_interruption_drains_queue exC9 rfl

/-- C10: the lock flag is changed only by the button block (which toggles
it); `reset_for_new_input`, the interruption block, analysis start, digit
evaluation, the analyzing handler (including completion), and every state
handler leave it unchanged. -/
theorem C10_lock_flag_frame (s : SysState) :
    (reset_for_new_input s).led_frozen = s.led_frozen ∧
    (interrupt_check s).led_frozen = s.led_frozen ∧
    (handle_start_analysis_state s).led_frozen = s.led_frozen ∧
    (perform_current_digit_analysis s).led_frozen = s.led_frozen ∧
    (handle_analyzing_digit_state s).led_frozen = s.led_frozen ∧
    (state_machine_step s).led_frozen = s.led_frozen ∧
    (s.button_pressed_flag = true → (button_check s).led_frozen = !s.led_frozen) ∧
    (s.button_pressed_flag = false → (button_check s).led_frozen = s.led_frozen) := by
  refine ⟨reset_led_frozen s, interrupt_led_frozen s, start_analysis_led_frozen s,
          perform_led_frozen s, analyzing_led_frozen s, step_led_frozen s, ?_, ?_⟩
  · intro h
    by_cases hf : s.led_frozen = true <;>
      simp [button_check, h, hf, uart_print, set_led_output_eq]
  · intro h
    simp [button_check, h]

theorem C10_lock_flag_frame_witness :
    (button_check exC10).led_frozen = !exC10.led_frozen ∧
    (reset_for_new_input exC10).led_frozen = exC10.led_frozen ∧
    (state_machine_step exC10).led_frozen = exC10.led_frozen := by
  have h := C10_lock_flag_frame exC10
  exact ⟨h.2.2.2.2.2.2.1 rfl, h.1, h.2.2.2.2.2.1⟩
